import Mathlib

/-!
Shallow embedding of the OpenStack modules of this repository:
os_orchestration_stack.py and os_stack.py (Heat stacks), os_group.py
(identity groups) and os_keystone_service.py (Keystone services).

Only os_keystone_service.py is valid, runnable Python; it is embedded in
full, with the cloud SDK as an explicit environment (the service returned by
get_service, and an SDK exception as an `err` input carrying the exception's
message, since every SDK call sits inside the one try/except of `main`).

The other three modules cannot execute the reconcile logic their sources
contain, and the embedding models them as they are written, crashes
included:
- os_orchestration_stack.py closes its argument_spec call with an unmatched
  parenthesis (line 128), a SyntaxError, so the file never imports; were it
  importable, line 148 calls _set_tenant_id, a name bound nowhere (underscore
  names are not star-imported), so every run of main fails inside the try and
  is reported through fail_json by the except at lines 217-218.  The lookup
  (150-155) reads module.params['name'] after 'name' was popped at line 139,
  the create and update calls (158-162, 191-195) pass the unbound variable
  stack_name, and lines 150-215 are unreachable in any case.
- os_stack.py has the same unmatched parenthesis (line 126) and a second one
  at line 192, pops 'name' at line 140 before the lookup at line 156 reads
  module.params['name'], passes unbound stack_name to its create and update
  calls (lines 169, 203), and reads the unassigned variable template in its
  diff at line 194.
- os_group.py nests every module option under a single argument_spec keyword
  of openstack_full_argument_spec (lines 61-66), so module.params never
  carries the key name, and module.params.pop('name') at line 74 — before
  the try at line 78 — raises an uncaught KeyError on every run; the
  reconcile logic at lines 78-105 is dead code.
-/

namespace AnsibleOS

/-- A Python 2 runtime error as the modules can raise it. -/
inductive PyErr where
  | keyError (key : String)
  | nameError (name : String)
  deriving DecidableEq, Repr

/-- e.message of a Python 2 exception, as the fail_json format strings read
it: KeyError carries the missing key, NameError its description. -/
def PyErr.message : PyErr → String
  | .keyError k => k
  | .nameError n => "name '" ++ n ++ "' is not defined"

/-- How a module run ends when its own code finishes it: module.exit_json
with a changed flag, or module.fail_json with a message. -/
inductive ModuleExit where
  | exitJson (changed : Bool)
  | failJson (msg : String)
  deriving DecidableEq, Repr

/-- Python dict subscript d[k] over an association list: the value, or
KeyError(k). -/
def pyDictGet (k : String) (d : List (String × String)) : Except PyErr String :=
  match d.find? (fun p => p.1 == k) with
  | some p => Except.ok p.2
  | none => Except.error (PyErr.keyError k)

/-- Python dict pop without a default: the value and the dict without the
key, or KeyError(k). -/
def pyDictPop (k : String) (d : List (String × String)) :
    Except PyErr (String × List (String × String)) :=
  match d.find? (fun p => p.1 == k) with
  | some p => Except.ok (p.2, d.filter (fun q => !(q.1 == k)))
  | none => Except.error (PyErr.keyError k)

/-- Python's str.lower as line 153 would apply it to stack names: lower each
character (String.toLower written by recursion over the character list, so
that concrete instances evaluate). -/
def pyLower (s : String) : String :=
  String.mk (s.data.map Char.toLower)

/-- A Heat stack as the remote listing reports it; the lookup loop reads
only its stack_name attribute. -/
structure CloudStack where
  stack_name : String
  deriving DecidableEq, Repr

/-- A concrete remote stack named Test. -/
def stackTest : CloudStack := { stack_name := "Test" }

/-- The keys os_orchestration_stack.py pops out of module.params at lines
139-143 (os_stack.py pops 'name' likewise at line 140). -/
def popsOf139to143 : List String :=
  ["name", "parameters", "tags", "template", "state"]

/-- module.params after the pops at lines 139-143: every popped key is
gone — in particular 'name'. -/
def afterPops (params : List (String × String)) : List (String × String) :=
  params.filter (fun p => !(popsOf139to143.contains p.1))

/-- The lookup loop of os_orchestration_stack.py lines 150-155 (os_stack.py
lines 153-158) exactly as written: for each stack of the listing the
condition evaluates module.params['name'].lower(), but 'name' was popped
from module.params at line 139 (line 140), so the first iteration raises
KeyError('name'); only an empty listing completes the scan, finding
nothing.  `params2` is module.params after the pops. -/
def findStackLoop (params2 : List (String × String)) :
    List CloudStack → Except PyErr (Option CloudStack)
  | [] => Except.ok none
  | stack :: rest =>
    match pyDictGet "name" params2 with
    | Except.error e => Except.error e
    | Except.ok name =>
      if pyLower stack.stack_name == pyLower name then Except.ok (some stack)
      else findStackLoop params2 rest

/-- The create call of os_orchestration_stack.py lines 158-162 (os_stack.py
lines 168-173): its first keyword argument evaluates the variable
stack_name, which is assigned nowhere in either file (line 139/140 binds
name, not stack_name), so evaluating the call raises NameError before any
create request reaches the service. -/
def createCall : Except PyErr CloudStack :=
  Except.error (PyErr.nameError "stack_name")

/-- The update call of os_orchestration_stack.py lines 191-195 (os_stack.py
lines 201-207): it passes the same unbound stack_name (and os_stack.py also
the unbound tpl_files), so evaluating it raises NameError before any update
request reaches the service. -/
def updateCall : Except PyErr CloudStack :=
  Except.error (PyErr.nameError "stack_name")

/-- The diff of os_stack.py lines 192-198 as written: line 192 closes
heat.stacks.template(...) with an unmatched parenthesis — a SyntaxError, so
the file never parses — and even ignoring that, line 194's cmp reads the
variable template, which in the found-stack branch is never assigned
(get_template_contents runs only in the not-found branch, which exits
first).  No changed verdict is ever computed. -/
def osStackChangedFlag : Except PyErr Bool :=
  Except.error (PyErr.nameError "template")

/-- The runtime behavior of os_orchestration_stack.py main's try body (lines
138-218), were the file importable at all (the argument_spec call at lines
119-128 closes with an unmatched parenthesis, a SyntaxError, so Python
refuses the file and main never runs).  After the pops at lines 139-143 and
the shade calls at lines 146-147 (an SDK exception there carries its own
message), line 148 calls _set_tenant_id, a name bound nowhere in the file
and not star-imported, so every run raises NameError there; the except at
lines 217-218 reports fail_json("Heat error: %s" % e.message).  The lookup,
create, update, delete and exit_json code at lines 150-215 is unreachable,
so the state and the listing are never consulted. -/
def osOrchMain (sdkErr : Option String) (_statePresent : Bool)
    (_listing : List CloudStack) : ModuleExit :=
  match sdkErr with
  | some m => ModuleExit.failJson ("Heat error: " ++ m)
  | none =>
    ModuleExit.failJson ("Heat error: " ++ PyErr.message (PyErr.nameError "_set_tenant_id"))

/-- module.params for os_group.py as AnsibleModule builds it from the
argument_spec of lines 61-68: openstack_full_argument_spec is called with
everything nested under one keyword named argument_spec, so the module's
options are the OpenStack common options (`common`, none of them named
name) plus one literal option argument_spec holding the nested dict —
name, description and state are not option names. -/
def osGroupParams (common : List (String × String)) (nested : String) :
    List (String × String) :=
  ("argument_spec", nested) :: common

/-- Lines 74-76 of os_group.py: the three pops that precede the try at line
78.  With module.params as lines 61-68 build it, the first pop already
raises KeyError('name'), and since it sits outside the try the module dies
with an uncaught exception; the reconcile logic of lines 78-105 is dead
code and is not embedded. -/
def osGroupPops (params : List (String × String)) :
    Except PyErr (String × String × String) :=
  match pyDictPop "name" params with
  | Except.error e => Except.error e
  | Except.ok (name, params1) =>
    match pyDictPop "description" params1 with
    | Except.error e => Except.error e
    | Except.ok (description, params2) =>
      match pyDictPop "state" params2 with
      | Except.error e => Except.error e
      | Except.ok (state, _) => Except.ok (name, description, state)

/-- A Keystone v2 service as shade reports it (os_keystone_service.py): the
remote record carries the field named type. -/
structure KService where
  name : String
  type : String
  description : String
  id : Nat
  deriving DecidableEq, Repr

/-- The new_service_kwargs dictionary of os_keystone_service.py lines
108-112. -/
structure NewServiceKwargs where
  name : String
  service_type : String
  description : String
  deriving DecidableEq, Repr

/-- os_keystone_service.py lines 76-79: field-by-field comparison of the
remote service against the desired kwargs. -/
def compare_services (service_a : KService) (service_b : NewServiceKwargs) : Bool :=
  service_a.name == service_b.name &&
    service_a.type == service_b.service_type &&
    service_a.description == service_b.description

/-- How an os_keystone_service run ends: module.exit_json with its changed
flag, result string, id and message, or module.fail_json with a message. -/
inductive KExit where
  | exitJson (changed : Bool) (result : Option String) (id : Option Nat) (msg : Option String)
  | failJson (msg : String)
  deriving DecidableEq, Repr

/-- A mutating Keystone call issued by os_keystone_service.py. -/
inductive KOp where
  | createS
  | deleteS
  deriving DecidableEq, Repr

/-- The logic of os_keystone_service.py `main` (lines 98-152): `service` is
what cloud.get_service returned, `newId` the id Keystone would give a created
service, `err` the message of an SDK exception when one is raised.  On an
exception the module fails with the message, except in check mode where it
exits successfully with changed=true (lines 146-152). -/
def osKeystoneMain (err : Option String) (service : Option KService) (newId : Nat)
    (service_name service_type description : String)
    (statePresent check_mode : Bool) : KExit × List KOp :=
  match err with
  | some m =>
    if check_mode then (KExit.exitJson true none none (some ("exception: " ++ m)), [])
    else (KExit.failJson ("exception: " ++ m), [])
  | none =>
    if statePresent then
      match service with
      | none =>
        if check_mode then (KExit.exitJson true none none none, [])
        else (KExit.exitJson true (some "created") (some newId) none, [KOp.createS])
      | some s =>
        if compare_services s ⟨service_name, service_type, description⟩ then
          (KExit.exitJson false (some "success") (some s.id) none, [])
        else
          (KExit.exitJson false (some "exists") (some s.id)
            (some "Keystone services cannot be updated"), [])
    else
      if check_mode then (KExit.exitJson service.isSome none none none, [])
      else
        match service with
        | some _ => (KExit.exitJson true (some "deleted") none none, [KOp.deleteS])
        | none => (KExit.exitJson false (some "success") none none, [])

/-- A concrete remote Keystone service. -/
def serviceW : KService :=
  { name := "glance", type := "image", description := "old", id := 3 }

/-! Helper lemmas. -/

/-- Every run of os_orchestration_stack.py's main (even read past its
SyntaxError) ends in fail_json, whatever the state, the listing and the
SDK's behavior. -/
theorem osOrchMain_always_fails (sdkErr : Option String) (sp : Bool)
    (l : List CloudStack) :
    ∃ msg, osOrchMain sdkErr sp l = ModuleExit.failJson msg := by
  cases sdkErr with
  | none => exact ⟨_, rfl⟩
  | some m => exact ⟨_, rfl⟩

/-- After the pops of lines 139-143, module.params has no key 'name', so
the subscript of line 153 raises KeyError('name'). -/
theorem afterPops_no_name (params : List (String × String)) :
    pyDictGet "name" (afterPops params) = Except.error (PyErr.keyError "name") := by
  have h : (afterPops params).find? (fun p => p.1 == "name") = none := by
    rw [List.find?_eq_none]
    intro p hp
    rw [afterPops, List.mem_filter] at hp
    intro hb
    have h1 : p.1 = "name" := eq_of_beq hb
    have h2 := hp.2
    rw [h1] at h2
    simp [popsOf139to143] at h2
  simp only [pyDictGet, h]

/-- On any nonempty listing the lookup loop of lines 150-155 raises
KeyError('name') in its first iteration. -/
theorem findStackLoop_afterPops_cons (params : List (String × String))
    (stack : CloudStack) (rest : List CloudStack) :
    findStackLoop (afterPops params) (stack :: rest) =
      Except.error (PyErr.keyError "name") := by
  simp only [findStackLoop, afterPops_no_name]

/-- os_group.py's module.params never carries the key 'name', whatever the
OpenStack common options contribute. -/
theorem osGroupParams_no_name (common : List (String × String)) (nested : String)
    (hcommon : common.find? (fun p => p.1 == "name") = none) :
    (osGroupParams common nested).find? (fun p => p.1 == "name") = none := by
  rw [osGroupParams, List.find?_cons_of_neg, hcommon]
  simp

/-- Line 74's pop of 'name' raises KeyError on every run of os_group.py. -/
theorem osGroupPops_keyerror (common : List (String × String)) (nested : String)
    (hcommon : common.find? (fun p => p.1 == "name") = none) :
    osGroupPops (osGroupParams common nested) = Except.error (PyErr.keyError "name") := by
  simp only [osGroupPops, pyDictPop, osGroupParams_no_name common nested hcommon]

/-! The claims. -/

/-- C1 (code bug): no present run of the cited modules ever reports a
changed flag, let alone changed=false on a second run: os_orchestration_
stack.py fails on every run (fail_json from the NameError at line 148, on
top of the SyntaxError at line 128), and os_group.py's pop of 'name' at line
74 raises an uncaught KeyError because its options are nested under an
argument_spec keyword. -/
theorem c1_present_run_crashes :
    (∀ (sdkErr : Option String) (listing : List CloudStack),
      ∃ msg, osOrchMain sdkErr true listing = ModuleExit.failJson msg) ∧
      (osOrchMain none true [stackTest] =
        ModuleExit.failJson
          ("Heat error: " ++ PyErr.message (PyErr.nameError "_set_tenant_id"))) ∧
      (osGroupPops (osGroupParams [("cloud", "devstack")] "nested-options") =
        Except.error (PyErr.keyError "name")) ∧
      (∀ (common : List (String × String)) (nested : String),
        common.find? (fun p => p.1 == "name") = none →
          osGroupPops (osGroupParams common nested) =
            Except.error (PyErr.keyError "name")) :=
  ⟨fun sdkErr listing => osOrchMain_always_fails sdkErr true listing, rfl, rfl,
    osGroupPops_keyerror⟩

/-- C2 (code bug): the lookup step never selects a match: on every nonempty
listing its first iteration raises KeyError('name'), because line 153 (os_
stack.py line 156) reads module.params['name'] after 'name' was popped at
line 139 (140); only an empty listing completes the scan, finding nothing.
Concretely, a listing holding a stack named Test with desired name test
raises instead of matching. -/
theorem c2_lookup_crashes_on_popped_name :
    (findStackLoop
        (afterPops [("name", "test"), ("wait", "True"), ("timeout", "120")])
        [stackTest] = Except.error (PyErr.keyError "name")) ∧
      (∀ (params : List (String × String)) (stack : CloudStack)
          (rest : List CloudStack),
        findStackLoop (afterPops params) (stack :: rest) =
          Except.error (PyErr.keyError "name")) ∧
      (∀ params : List (String × String),
        findStackLoop (afterPops params) [] = Except.ok none) :=
  ⟨findStackLoop_afterPops_cons [("name", "test"), ("wait", "True"), ("timeout", "120")]
      stackTest [],
    findStackLoop_afterPops_cons, fun _ => rfl⟩

/-- C3 (code bug): no create call is ever issued: evaluating the create
statement raises NameError on the unbound stack_name, and every run of the
module ends in fail_json, never in an exit_json that could carry the
claimed create-and-poll result. -/
theorem c3_create_call_raises_nameerror :
    createCall = Except.error (PyErr.nameError "stack_name") ∧
      ∀ (sdkErr : Option String) (listing : List CloudStack) (b : Bool),
        osOrchMain sdkErr true listing ≠ ModuleExit.exitJson b := by
  refine ⟨rfl, ?_⟩
  intro sdkErr listing b h
  cases sdkErr with
  | none => exact ModuleExit.noConfusion h
  | some m => exact ModuleExit.noConfusion h

/-- C4 (code bug): the sufficient-budget wait behavior is unreachable:
every run of the module fails, so no run returns a CREATE_COMPLETE
snapshot whatever the timeout and the remote trajectory. -/
theorem c4_wait_result_unreachable :
    (∀ (sdkErr : Option String) (statePresent : Bool) (listing : List CloudStack),
      ∃ msg, osOrchMain sdkErr statePresent listing = ModuleExit.failJson msg) ∧
      osOrchMain none true [] =
        ModuleExit.failJson
          ("Heat error: " ++ PyErr.message (PyErr.nameError "_set_tenant_id")) :=
  ⟨osOrchMain_always_fails, rfl⟩

/-- C5 (code bug): the silent-timeout return (no error, changed=true,
status still in progress) does not exist: every run raises and is reported
through fail_json, never through exit_json. -/
theorem c5_timeout_result_unreachable :
    (∀ b : Bool, osOrchMain none true [] ≠ ModuleExit.exitJson b) ∧
      (∃ msg, osOrchMain none true [] = ModuleExit.failJson msg) := by
  refine ⟨?_, osOrchMain_always_fails none true []⟩
  intro b h
  exact ModuleExit.noConfusion h

/-- C6 (code bug): the template comparison never runs: os_stack.py's diff
reads the unassigned variable template (inside a file with a SyntaxError at
the very comparison line), and the os_orchestration_stack.py skip branch is
unreachable — no run reports changed=false for an existing match. -/
theorem c6_template_diff_crashes :
    osStackChangedFlag = Except.error (PyErr.nameError "template") ∧
      (∀ b : Bool, osStackChangedFlag ≠ Except.ok b) ∧
      (∀ (sdkErr : Option String) (listing : List CloudStack),
        osOrchMain sdkErr true listing ≠ ModuleExit.exitJson false) := by
  refine ⟨rfl, ?_, ?_⟩
  · intro b h
    exact Except.noConfusion h
  · intro sdkErr listing h
    cases sdkErr with
    | none => exact ModuleExit.noConfusion h
    | some m => exact ModuleExit.noConfusion h

/-- C7 (code bug): the absent-state semantics never plays out: the stack
module fails on every run (so no delete, no changed=true, no changed=false),
and os_group.py dies at line 74 with an uncaught KeyError before its absent
branch. -/
theorem c7_absent_run_crashes :
    (osOrchMain none false [stackTest] =
      ModuleExit.failJson
        ("Heat error: " ++ PyErr.message (PyErr.nameError "_set_tenant_id"))) ∧
      (∀ b : Bool, osOrchMain none false [stackTest] ≠ ModuleExit.exitJson b) ∧
      (osGroupPops (osGroupParams [] "nested-options") =
        Except.error (PyErr.keyError "name")) := by
  refine ⟨rfl, ?_, rfl⟩
  intro b h
  exact ModuleExit.noConfusion h

/-- C8 counterexample: an invocation of os_keystone_service in check mode on
which the SDK raises does not fail fatally: it returns a successful exit with
changed=true carrying the message, refuting that every erroring invocation
fails. -/
theorem c8_checkmode_error_counterexample :
    (osKeystoneMain (some "Auth failed") none 1 "glance" "image" "desc" true true).1 =
        KExit.exitJson true none none (some "exception: Auth failed") ∧
      ∀ m, (osKeystoneMain (some "Auth failed") none 1 "glance" "image" "desc" true true).1 ≠
          KExit.failJson m := by
  refine ⟨rfl, ?_⟩
  intro m h
  simp [osKeystoneMain] at h

/-- C8 amended: in os_keystone_service — the one module that reaches the
external service — an SDK error makes the run fail fatally with a result
carrying the exception's message and no retry, except in check mode, where
it instead exits successfully with changed=true and the message. -/
theorem c8_errors_fatal_amended (m : String) (service : Option KService) (newId : Nat)
    (sname stype sdesc : String) (kstate : Bool) :
    osKeystoneMain (some m) service newId sname stype sdesc kstate false =
        (KExit.failJson ("exception: " ++ m), []) ∧
      osKeystoneMain (some m) service newId sname stype sdesc kstate true =
        (KExit.exitJson true none none (some ("exception: " ++ m)), []) :=
  ⟨rfl, rfl⟩

/-- C9 (code bug): no changed verdict is ever computed that could depend on
anything: the os_stack.py diff raises NameError on the unassigned template,
and the stack module never reaches an exit_json, so noninterference has no
subject. -/
theorem c9_changed_verdict_never_computed :
    (¬∃ b : Bool, osStackChangedFlag = Except.ok b) ∧
      (∀ (sdkErr : Option String) (listing : List CloudStack) (b : Bool),
        osOrchMain sdkErr true listing ≠ ModuleExit.exitJson b) := by
  constructor
  · rintro ⟨b, h⟩
    exact Except.noConfusion h
  · intro sdkErr listing b h
    cases sdkErr with
    | none => exact ModuleExit.noConfusion h
    | some m => exact ModuleExit.noConfusion h

/-- C10: when state=present and a Keystone service with the desired name
exists but its type or description differs, no create, update or delete call
is issued and the module exits with changed=false, result exists and the
existing id: the remote service is left as found. -/
theorem c10_keystone_never_modified_in_place (s : KService) (newId : Nat)
    (sname stype sdesc : String) (_hname : s.name = sname)
    (hdiff : s.type ≠ stype ∨ s.description ≠ sdesc) :
    osKeystoneMain none (some s) newId sname stype sdesc true false =
      (KExit.exitJson false (some "exists") (some s.id)
        (some "Keystone services cannot be updated"), []) := by
  have hcmp : compare_services s ⟨sname, stype, sdesc⟩ = false := by
    rcases hdiff with h | h
    · simp [compare_services, h]
    · simp [compare_services, h]
  simp [osKeystoneMain, hcmp]

/-- C10 witness: the frame theorem applied to a concrete existing service
whose type differs from the desired one. -/
theorem c10_keystone_never_modified_in_place_witness :
    osKeystoneMain none (some serviceW) 9 "glance" "volume" "old" true false =
      (KExit.exitJson false (some "exists") (some serviceW.id)
        (some "Keystone services cannot be updated"), []) :=
  c10_keystone_never_modified_in_place serviceW 9 "glance" "volume" "old" rfl
    (Or.inl (by decide))

end AnsibleOS
